import Mathlib

/-!
Verification of the AI_Receptionist webhook conversation core.

Shallow embedding of `backend/api/webhooks.py`, `backend/services/ai_handler.py`
and `backend/services/telephony.py`.  External effects (the OpenAI
chat-completion round trip, the JSON decoder, database commit failure) are
modelled as explicit parameters; the database tables and the process-global
`active_conversations` dict are explicit state threaded through the handlers.
Python dicts are modelled as insertion-ordered association lists with
replace-in-place update semantics.
-/

namespace AIRecep

/-- Python dict lookup `d.get(k)`. -/
def dictGet {α : Type} (d : List (String × α)) (k : String) : Option α :=
  (d.find? (fun p => p.1 == k)).map (·.2)

/-- Python dict assignment `d[k] = v`: overwrites in place if the key exists,
appends at the end otherwise (insertion order preserved). -/
def dictSet {α : Type} (d : List (String × α)) (k : String) (v : α) : List (String × α) :=
  if (d.find? (fun p => p.1 == k)).isSome then
    d.map (fun p => if p.1 == k then (k, v) else p)
  else
    d ++ [(k, v)]

/-- Python `del d[k]` (and also total on absent keys, for `remove` reasoning). -/
def dictDel {α : Type} (d : List (String × α)) (k : String) : List (String × α) :=
  d.filter (fun p => p.1 != k)

/-- Python `d.update(e)`. -/
def dictUpdate {α : Type} (d e : List (String × α)) : List (String × α) :=
  e.foldl (fun acc p => dictSet acc p.1 p.2) d

/-- Python string interpolation of a possibly-`None` value (`f"{x}"`). -/
def pyStr : Option String → String
  | some s => s
  | none => "None"

/-- Python truthiness of an `Optional[str]`: `None` and `""` are falsy. -/
def pyTruthyStr : Option String → Bool
  | some s => s != ""
  | none => false

/-- Python `a or b` on an optional string `a` (used for `message.content or ...`). -/
def pyOrStr (a : Option String) (b : String) : String :=
  match a with
  | some s => if s == "" then b else s
  | none => b

/-- Python `a or 0` on an `Optional[int]` `a` (used for `CallDuration or 0`). -/
def pyOrInt (a : Option Int) : Int :=
  match a with
  | some n => if n == 0 then 0 else n
  | none => 0

/-! ## TelephonyService (`backend/services/telephony.py`)

TwiML output is modelled as the ordered list of verbs the builder appends to
the `VoiceResponse`; a `Gather` containing a `Say` is one verb. -/

/-- One TwiML verb emitted by `TelephonyService`. -/
inductive TwimlVerb
  | say (msg : String) (voice : String)
  | gatherSay (msg : String) (voice : String)
  | hangup
  | redirect (url : String)
  | dial (number : String)
  deriving DecidableEq, Repr

/-- A rendered TwiML document: the verbs in order. -/
abbrev Twiml := List TwimlVerb

/-- Embedding of `TelephonyService.create_greeting_response`. -/
def create_greeting_response (greeting_message : String)
    (voice : String := "Polly.Joanna") : Twiml :=
  [.gatherSay greeting_message voice,
   .say "I didn't catch that. How may I help you?" voice,
   .redirect "/api/webhooks/twilio/voice"]

/-- Embedding of `TelephonyService.create_response`. -/
def create_response (message : String) (voice : String := "Polly.Joanna")
    (gather_input : Bool := true) (end_call : Bool := false) : Twiml :=
  if end_call then
    [.say message voice, .hangup]
  else if gather_input then
    [.gatherSay message voice,
     .say "Are you still there?" voice,
     .redirect "/api/webhooks/twilio/voice"]
  else
    [.say message voice]

/-- Embedding of `TelephonyService.transfer_call`. -/
def transfer_call (phone_number : String) (message : Option String := none)
    (voice : String := "Polly.Joanna") : Twiml :=
  (if pyTruthyStr message then [TwimlVerb.say (pyStr message) voice] else [])
    ++ [.dial phone_number]

/-! ## AIConversationHandler (`backend/services/ai_handler.py`)

The OpenAI client round trip is external; each call site takes the round
trip's outcome as a parameter (a normal reply or a raised exception).  The
business-profile entries of `business_context` feed only the text of the
system prompt sent to the external model and are not otherwise observed;
the one key the core mutates and reads back, `custom_prompts`, is modelled. -/

/-- One entry of `conversation_history` (`{"role": ..., "content": ...}`);
`content` can be Python `None` for a model reply without text. -/
structure ChatMessage where
  role : String
  content : Option String
  deriving DecidableEq, Repr

/-- State of one `AIConversationHandler`: whether the OpenAI client was
constructed (`settings.OPENAI_API_KEY` present), the `custom_prompts` entry of
`business_context`, and the mutable `conversation_history`. -/
structure AIHandler where
  configured : Bool
  custom_prompts : Option String
  conversation_history : List ChatMessage
  deriving DecidableEq, Repr

/-- Embedding of `AIConversationHandler.__init__`. -/
def AIHandler.init (openai_configured : Bool) : AIHandler :=
  { configured := openai_configured, custom_prompts := none, conversation_history := [] }

/-- A prompt's `trigger_phrases` / `fields_to_collect` value as seen by
`add_prompts_to_context`: either serialized text (the database case) or an
already-decoded list (the `isinstance(_, str)` check fails). -/
abbrev StrOrList := Sum String (List String)

/-- The decoded `trigger_phrases` sequence (lines 94–100 of ai_handler.py):
`json.loads` on a string, and on decode failure the raw string wrapped in a
one-element list (`triggers = [triggers]`).  `jdecode` is the external JSON
decoder, `none` meaning `json.loads` raised. -/
def loadTriggers (jdecode : String → Option (List String)) : StrOrList → List String
  | .inr l => l
  | .inl s =>
    match jdecode s with
    | some l => l
    | none => [s]

/-- The decoded `fields_to_collect` sequence (lines 109–115 of ai_handler.py):
`json.loads` on a string, and on decode failure the empty list (`fields = []`). -/
def loadFields (jdecode : String → Option (List String)) : StrOrList → List String
  | .inr l => l
  | .inl s =>
    match jdecode s with
    | some l => l
    | none => []

/-- One element of the `prompt_data` list built in `handle_incoming_call`. -/
structure PromptData where
  category : String
  trigger_phrases : StrOrList
  content : String
  ai_instructions : String
  requires_info_collection : Bool
  fields_to_collect : StrOrList
  deriving Repr

/-- The `prompt_context` string accumulated by `add_prompts_to_context`. -/
def buildPromptContext (jdecode : String → Option (List String))
    (prompts : List PromptData) : String :=
  prompts.foldl (fun acc p =>
    let triggers := loadTriggers jdecode p.trigger_phrases
    let acc := acc ++ "\nWhen caller mentions: " ++ String.intercalate ", " triggers
      ++ "\nCategory: " ++ p.category
      ++ "\nResponse: " ++ p.content
      ++ "\nInstructions: " ++ p.ai_instructions ++ "\n"
    if p.requires_info_collection then
      acc ++ "Collect: "
        ++ String.intercalate ", " (loadFields jdecode p.fields_to_collect) ++ "\n"
    else acc)
    "\n\nCUSTOM PROMPTS AND RESPONSES:\n"

/-- Embedding of `AIConversationHandler.add_prompts_to_context`: stores the built context
under `business_context['custom_prompts']`; early return on an empty list. -/
def add_prompts_to_context (h : AIHandler) (jdecode : String → Option (List String))
    (prompts : List PromptData) : AIHandler :=
  if prompts.isEmpty then h
  else { h with custom_prompts := some (buildPromptContext jdecode prompts) }

/-- Outcome of the `chat.completions.create` round trip inside
`process_input`: a message (optional text content, optional function call with
its decoded arguments), or a raised exception. -/
inductive ModelOutcome
  | ok (content : Option String) (function_call : Option (String × List (String × String)))
  | exn (e : String)
  deriving Repr

/-- The dict returned by `process_input` (keys `response`, `action`,
`action_data`, `error`; a missing key and a key set to `None` both appear as
`none`). -/
structure ProcessResult where
  response : Option String
  action : Option String
  action_data : Option (List (String × String))
  error : Option String
  deriving DecidableEq, Repr

/-- Embedding of `AIConversationHandler._get_action_response`. -/
def getActionResponse (action : String) (data : List (String × String)) : String :=
  if action == "schedule_appointment" then
    "I've scheduled your appointment for " ++ pyStr (dictGet data "preferred_date")
      ++ " at " ++ pyStr (dictGet data "preferred_time")
      ++ ". We'll see you then, " ++ pyStr (dictGet data "patient_name") ++ "!"
  else if action == "transfer_call" then
    "I'll transfer you to one of our staff members now. Please hold."
  else if action == "end_call" then
    "Thank you for calling! Have a great day."
  else ""

/-- Embedding of `AIConversationHandler.process_input`: returns the mutated handler and the
result dict.  Unconfigured client: fixed fallback, no history append.  Raised
exception: fixed fallback with the error string, after the user turn was
already appended.  Success: optional function call decoded, reply appended. -/
def process_input (h : AIHandler) (user_input : String)
    (outcome : ModelOutcome) : AIHandler × ProcessResult :=
  if !h.configured then
    (h, { response := some "I apologize, but I'm having technical difficulties. Please hold while I transfer you to our staff.",
          action := some "transfer",
          action_data := none,
          error := some "OpenAI not configured" })
  else
    let h1 := { h with conversation_history :=
      h.conversation_history ++ [{ role := "user", content := some user_input }] }
    match outcome with
    | .exn e =>
      (h1, { response := some "I apologize, but I'm experiencing some issues. Let me transfer you to our staff.",
             action := some "transfer",
             action_data := none,
             error := some e })
    | .ok content fc =>
      let result : ProcessResult :=
        match fc with
        | some (fname, fargs) =>
          { response := some (pyOrStr content (getActionResponse fname fargs)),
            action := some fname,
            action_data := some fargs,
            error := none }
        | none =>
          { response := content, action := none, action_data := none, error := none }
      let h2 := { h1 with conversation_history :=
        h1.conversation_history ++ [{ role := "assistant", content := result.response }] }
      (h2, result)

/-- Embedding of `AIConversationHandler.summarize_call`; `outcome` is the external
summary round trip (`.error` meaning an exception was raised). -/
def summarize_call (h : AIHandler) (outcome : Except String String) : String :=
  if !h.configured || h.conversation_history.isEmpty then
    "No conversation to summarize."
  else
    match outcome with
    | .ok text => text.trim
    | .error _ => "Unable to generate summary."

/-- Embedding of `AIConversationHandler.analyze_sentiment`; `outcome` is the external
classification round trip. -/
def analyze_sentiment (h : AIHandler) (text : String)
    (outcome : Except String String) : String :=
  let _ := text
  if !h.configured then "neutral"
  else
    match outcome with
    | .ok text =>
      let sentiment := text.trim.toLower
      if sentiment == "positive" || sentiment == "neutral" || sentiment == "negative" then
        sentiment
      else "neutral"
    | .error _ => "neutral"

/-! ## Data model (`backend/models/`) and webhook state (`backend/api/webhooks.py`) -/

/-- Embedding of the `models.call.CallStatus` enum. -/
inductive CallStatus
  | IN_PROGRESS | COMPLETED | TRANSFERRED | VOICEMAIL | MISSED | FAILED
  deriving DecidableEq, Repr

/-- The columns of `models.business.Business` the webhook layer reads.  The
remaining profile columns feed only the system-prompt text of the external
model call. -/
structure Business where
  id : Nat
  phone_number : Option String
  ai_voice : Option String
  greeting_message : String
  twilio_phone_number : Option String
  deriving DecidableEq, Repr

/-- A row of `models.prompt.Prompt` as consumed by `handle_incoming_call`
(`category` already via `.value`, nullable text columns via interpolation). -/
structure PromptRow where
  business_id : Nat
  category : String
  trigger_phrases : String
  content : String
  ai_instructions : String
  requires_info_collection : Bool
  fields_to_collect : String
  priority : Int
  is_active : Bool
  deriving Repr

/-- The columns of `models.call.Call` the webhook layer writes. -/
structure CallRec where
  id : Nat
  business_id : Nat
  twilio_call_sid : Option String
  caller_number : Option String
  called_number : Option String
  status : CallStatus
  duration_seconds : Int
  transcript : Option String
  call_summary : Option String
  sentiment : Option String
  collected_info : List (String × String)
  action_taken : Option String
  action_details : List (String × String)
  deriving DecidableEq, Repr

/-- One value of the `active_conversations` dict: the per-call
ConversationState. -/
structure Conversation where
  ai_handler : AIHandler
  call_id : Nat
  business_id : Nat
  collected_info : List (String × String)
  transcript : List String
  deriving DecidableEq, Repr

/-- The state a webhook invocation reads and writes: ambient configuration,
the durable tables, and the process-global `active_conversations` dict. -/
structure World where
  openai_configured : Bool
  businesses : List Business
  prompts : List PromptRow
  calls : List CallRec
  active_conversations : List (String × Conversation)
  deriving Repr

/-- Autoincrement primary key for a freshly inserted `Call` row. -/
def freshCallId (w : World) : Nat :=
  (w.calls.foldl (fun m c => max m c.id) 0) + 1

/-- The query `SELECT ... WHERE Call.id == i` with `scalar_one_or_none`. -/
def findCall (w : World) (i : Nat) : Option CallRec :=
  w.calls.find? (fun c => c.id == i)

/-- Write back one mutated `Call` row at commit. -/
def setCall (calls : List CallRec) (c : CallRec) : List CallRec :=
  calls.map (fun x => if x.id == c.id then c else x)

/-- The `polly_voice_map.get(business.ai_voice, ...)` default `Polly.Joanna` lookup. -/
def pollyVoice (ai_voice : Option String) : String :=
  let polly_voice_map : List (String × String) :=
    [("alloy", "Polly.Joanna"), ("echo", "Polly.Matthew"), ("fable", "Polly.Amy"),
     ("onyx", "Polly.Brian"), ("nova", "Polly.Salli"), ("shimmer", "Polly.Kimberly")]
  match ai_voice with
  | some v => (dictGet polly_voice_map v).getD "Polly.Joanna"
  | none => "Polly.Joanna"

/-! ## `handle_incoming_call` (`POST /twilio/voice`) -/

/-- Stable insertion into a descending-priority list: an element moves ahead
only of strictly lower priorities, so equal priorities keep insertion order. -/
def insertDesc (p : PromptRow) : List PromptRow → List PromptRow
  | [] => [p]
  | q :: t => if q.priority < p.priority then p :: q :: t else q :: insertDesc p t

/-- Stable sort by descending `priority` (`ORDER BY Prompt.priority DESC`,
ties broken by insertion order). -/
def sortByPriorityDesc : List PromptRow → List PromptRow
  | [] => []
  | p :: t => insertDesc p (sortByPriorityDesc t)

/-- The `SELECT Prompt WHERE business_id = ... AND is_active ORDER BY priority
DESC` query and the `prompt_data` comprehension of `handle_incoming_call`. -/
def loadPromptData (w : World) (business : Business) : List PromptData :=
  (sortByPriorityDesc
      (w.prompts.filter (fun p => p.business_id == business.id && p.is_active))).map (fun p =>
    { category := p.category
      trigger_phrases := .inl p.trigger_phrases
      content := p.content
      ai_instructions := p.ai_instructions
      requires_info_collection := p.requires_info_collection
      fields_to_collect := .inl p.fields_to_collect })

/-- Embedding of `handle_incoming_call`: resolve the business by called number; if none,
the fixed "not configured" response with hang-up and no state change;
otherwise insert an `IN_PROGRESS` call row, build the AI handler with the
active prompts (descending priority), register the conversation, and emit the
greeting with a gather directive. -/
def handle_incoming_call (w : World) (CallSid : String)
    («From» To : Option String)
    (jdecode : String → Option (List String)) : World × Twiml :=
  match w.businesses.find? (fun b => b.twilio_phone_number == To) with
  | none =>
    (w, create_response
      "We're sorry, but this number is not configured. Please try again later."
      "Polly.Joanna" true true)
  | some business =>
    let call : CallRec :=
      { id := freshCallId w
        business_id := business.id
        twilio_call_sid := some CallSid
        caller_number := «From»
        called_number := To
        status := .IN_PROGRESS
        duration_seconds := 0
        transcript := none
        call_summary := none
        sentiment := none
        collected_info := []
        action_taken := none
        action_details := [] }
    let w1 := { w with calls := w.calls ++ [call] }
    let ai_handler := add_prompts_to_context (AIHandler.init w.openai_configured)
      jdecode (loadPromptData w business)
    let conversation : Conversation :=
      { ai_handler := ai_handler
        call_id := call.id
        business_id := business.id
        collected_info := []
        transcript := [] }
    let w2 := { w1 with active_conversations :=
      (dictSet w1.active_conversations CallSid conversation) }
    (w2, create_greeting_response business.greeting_message (pollyVoice business.ai_voice))

/-! ## `handle_speech_input` (`POST /twilio/handle-input`) -/

/-- The main branch of `handle_speech_input` (lines 151–224 of webhooks.py):
append the caller line to the registered conversation, run `process_input`
(which mutates the conversation's handler in place), append the AI line, and
dispatch on the returned action string. -/
def speech_turn_body (w : World) (CallSid : String) (conversation : Conversation)
    (speech : String) (outcome : ModelOutcome) : World × Twiml :=
  let conv1 := { conversation with transcript :=
    (conversation.transcript ++ ["Caller: " ++ speech]) }
  let pr := process_input conversation.ai_handler speech outcome
  let response := pr.2
  let conv2 := { conv1 with
    ai_handler := pr.1
    transcript := (conv1.transcript ++ ["AI: " ++ pyStr response.response]) }
  let w2 := { w with active_conversations :=
    (dictSet w.active_conversations CallSid conv2) }
  if response.action == some "schedule_appointment" then
        let conv3 :=
          match response.action_data with
          | some data =>
            if data.isEmpty then conv2
            else { conv2 with collected_info := dictUpdate conv2.collected_info data }
          | none => conv2
        let w3 := { w2 with active_conversations :=
          (dictSet w2.active_conversations CallSid conv3) }
        let w4 :=
          match findCall w3 conv3.call_id with
          | some call =>
            { w3 with calls := (setCall w3.calls
              { call with
                collected_info := conv3.collected_info
                action_taken := some "appointment_scheduled"
                action_details := (response.action_data).getD [] }) }
          | none => w3
        (w4, create_response (pyStr response.response) "Polly.Joanna" true true)
      else if response.action == some "transfer_call" then
        match w2.businesses.find? (fun b => b.id == conversation.business_id) with
        | some business =>
          if pyTruthyStr business.phone_number then
            (w2, transfer_call (pyStr business.phone_number) response.response)
          else
            (w2, create_response (pyStr response.response) "Polly.Joanna" true)
        | none =>
          (w2, create_response (pyStr response.response) "Polly.Joanna" true)
      else if response.action == some "end_call" then
        (w2, create_response (pyStr response.response) "Polly.Joanna" true true)
      else
        (w2, create_response (pyStr response.response) "Polly.Joanna" true)

/-- Embedding of `handle_speech_input`: on missing state or falsy `SpeechResult`, the fixed
"didn't catch that" gather response with no state change; otherwise the main
turn body above. -/
def handle_speech_input (w : World) (CallSid : String)
    (SpeechResult : Option String) (outcome : ModelOutcome) : World × Twiml :=
  match dictGet w.active_conversations CallSid with
  | none =>
    (w, create_response "I'm sorry, I didn't catch that. Could you please repeat?"
      "Polly.Joanna" true)
  | some conversation =>
    if !pyTruthyStr SpeechResult then
      (w, create_response "I'm sorry, I didn't catch that. Could you please repeat?"
        "Polly.Joanna" true)
    else
      speech_turn_body w CallSid conversation (pyStr SpeechResult) outcome

/-! ## `handle_call_status` (`POST /twilio/status`) -/

/-- The `status_map` dict of `handle_call_status`. -/
def status_map : List (String × CallStatus) :=
  [("completed", .COMPLETED), ("busy", .MISSED), ("no-answer", .MISSED),
   ("canceled", .MISSED), ("failed", .FAILED)]

/-- The `{"status": "ok"}` acknowledgement payload. -/
def statusAck : List (String × String) := [("status", "ok")]

/-- Embedding of `handle_call_status`: if a conversation is registered, reconcile the
durable call row (status map, duration, transcript, summary, sentiment) and
then delete the registry entry; otherwise a no-op acknowledgement.
`commitFails` models `db.commit()` raising: the durable tables keep their old
rows, the exception propagates out of the handler, and the statements after
`commit` (the registry deletion) never run. -/
def handle_call_status (w : World) (CallSid : String) (TwilioCallStatus : String)
    (CallDuration : Option Int) (commitFails : Bool)
    (summaryOutcome sentimentOutcome : Except String String) :
    World × Except String (List (String × String)) :=
  match dictGet w.active_conversations CallSid with
  | none => (w, .ok statusAck)
  | some conversation =>
    match findCall w conversation.call_id with
    | none =>
      ({ w with active_conversations := dictDel w.active_conversations CallSid },
       .ok statusAck)
    | some call =>
      let joined := String.intercalate "\n" conversation.transcript
      let caller_messages :=
        (conversation.transcript.filter (fun line => line.startsWith "Caller:")).map
          (fun line => line.replace "Caller: " "")
      let call' : CallRec :=
        { call with
          status := (dictGet status_map TwilioCallStatus.toLower).getD .COMPLETED
          duration_seconds := pyOrInt CallDuration
          transcript := some joined
          call_summary := some (summarize_call conversation.ai_handler summaryOutcome)
          sentiment :=
            if joined != "" && !caller_messages.isEmpty then
              some (analyze_sentiment conversation.ai_handler
                (String.intercalate " " caller_messages) sentimentOutcome)
            else call.sentiment }
      if commitFails then
        (w, .error "commit failed")
      else
        ({ w with
            calls := setCall w.calls call'
            active_conversations := dictDel w.active_conversations CallSid },
         .ok statusAck)

/-! ## Concrete fixtures for witnesses and counterexamples -/

/-- A configured AI handler with empty history. -/
def sampleHandler : AIHandler :=
  { configured := true, custom_prompts := none, conversation_history := [] }

/-- A business row reachable at `+15550999` with a human line `+15550777`. -/
def sampleBusiness : Business :=
  { id := 7, phone_number := some "+15550777", ai_voice := some "alloy",
    greeting_message := "Hello!", twilio_phone_number := some "+15550999" }

/-- An in-progress call row. -/
def sampleCall : CallRec :=
  { id := 1, business_id := 7, twilio_call_sid := some "CA1",
    caller_number := some "+15550123", called_number := some "+15550999",
    status := .IN_PROGRESS, duration_seconds := 0, transcript := none,
    call_summary := none, sentiment := none, collected_info := [],
    action_taken := none, action_details := [] }

/-- A live conversation for call `CA1` with two transcript lines. -/
def sampleConv : Conversation :=
  { ai_handler := sampleHandler, call_id := 1, business_id := 7,
    collected_info := [], transcript := ["Caller: hi", "AI: hello"] }

/-- A world with one business, one call row and one live conversation. -/
def sampleWorld : World :=
  { openai_configured := true, businesses := [sampleBusiness], prompts := [],
    calls := [sampleCall], active_conversations := [("CA1", sampleConv)] }

/-! ## Dictionary lemmas -/

theorem dictGet_dictDel {α : Type} (d : List (String × α)) (k : String) :
    dictGet (dictDel d k) k = none := by
  induction d with
  | nil => rfl
  | cons a t ih =>
    by_cases h : a.1 = k
    · have hd : dictDel (a :: t) k = dictDel t k := by
        simp [dictDel, List.filter_cons, h]
      rw [hd]
      exact ih
    · have hd : dictDel (a :: t) k = a :: dictDel t k := by
        simp [dictDel, List.filter_cons, h]
      rw [hd]
      simpa [dictGet, h] using ih

theorem dictGet_map_set {α : Type} (d : List (String × α)) (k : String) (v : α)
    (h : (d.find? (fun p => p.1 == k)).isSome = true) :
    dictGet (d.map (fun p => if p.1 == k then (k, v) else p)) k = some v := by
  induction d with
  | nil => simp [List.find?] at h
  | cons a t ih =>
    by_cases hak : a.1 = k
    · simp [dictGet, hak]
    · have ht : (t.find? (fun p => p.1 == k)).isSome = true := by
        simpa [List.find?_cons, hak] using h
      simpa [dictGet, hak] using ih ht

theorem dictGet_append_single {α : Type} (d : List (String × α)) (k : String) (v : α)
    (h : d.find? (fun p => p.1 == k) = none) :
    dictGet (d ++ [(k, v)]) k = some v := by
  induction d with
  | nil => simp [dictGet]
  | cons a t ih =>
    have hak : ¬ a.1 = k := by
      intro hk
      simp [List.find?_cons, hk] at h
    have ht : t.find? (fun p => p.1 == k) = none := by
      simpa [List.find?_cons, hak] using h
    simpa [dictGet, hak] using ih ht

theorem dictGet_dictSet_self {α : Type} (d : List (String × α)) (k : String) (v : α) :
    dictGet (dictSet d k v) k = some v := by
  unfold dictSet
  by_cases h : (d.find? (fun p => p.1 == k)).isSome = true
  · rw [if_pos h]
    exact dictGet_map_set d k v h
  · rw [if_neg h]
    exact dictGet_append_single d k v (by
      cases hf : d.find? (fun p => p.1 == k)
      · rfl
      · simp [hf] at h)

theorem dictSet_length_of_mem {α : Type} (d : List (String × α)) (k : String) (v : α)
    (h : (d.find? (fun p => p.1 == k)).isSome = true) :
    (dictSet d k v).length = d.length := by
  unfold dictSet
  rw [if_pos h]
  simp

theorem findCall_setCall (calls : List CallRec) (cOld c : CallRec) (i : Nat)
    (h : calls.find? (fun x => x.id == i) = some cOld) (hid : c.id = i) :
    (setCall calls c).find? (fun x => x.id == i) = some c := by
  induction calls with
  | nil => simp [List.find?] at h
  | cons a t ih =>
    by_cases hai : a.id = i
    · have hac : a.id = c.id := by rw [hai, hid]
      simp [setCall, hac, hid]
    · have hac : ¬ a.id = c.id := by rw [hid]; exact hai
      have ht : t.find? (fun x => x.id == i) = some cOld := by
        simpa [List.find?_cons, hai] using h
      simpa [setCall, hac, hai] using ih ht

theorem pyOrInt_eq_getD (d : Option Int) : pyOrInt d = d.getD 0 := by
  cases d with
  | none => rfl
  | some n => by_cases h : n = 0 <;> simp [pyOrInt, h]

theorem status_map_cases (s : String) :
    (dictGet status_map s).getD CallStatus.COMPLETED =
      (if s = "completed" then CallStatus.COMPLETED
       else if s = "busy" ∨ s = "no-answer" ∨ s = "canceled" then CallStatus.MISSED
       else if s = "failed" then CallStatus.FAILED
       else CallStatus.COMPLETED) := by
  by_cases h1 : s = "completed"
  · subst h1; decide
  · by_cases h2 : s = "busy"
    · subst h2; decide
    · by_cases h3 : s = "no-answer"
      · subst h3; decide
      · by_cases h4 : s = "canceled"
        · subst h4; decide
        · by_cases h5 : s = "failed"
          · subst h5; decide
          · have e1 : ("completed" == s) = false := beq_eq_false_iff_ne.mpr (Ne.symm h1)
            have e2 : ("busy" == s) = false := beq_eq_false_iff_ne.mpr (Ne.symm h2)
            have e3 : ("no-answer" == s) = false := beq_eq_false_iff_ne.mpr (Ne.symm h3)
            have e4 : ("canceled" == s) = false := beq_eq_false_iff_ne.mpr (Ne.symm h4)
            have e5 : ("failed" == s) = false := beq_eq_false_iff_ne.mpr (Ne.symm h5)
            simp [status_map, dictGet, List.find?, e1, e2, e3, e4, e5, h1, h2, h3, h4, h5]

theorem speech_input_reduce (w : World) (CallSid : String) (conv : Conversation)
    (s : String) (outcome : ModelOutcome)
    (hconv : dictGet w.active_conversations CallSid = some conv)
    (hs : s ≠ "") :
    handle_speech_input w CallSid (some s) outcome =
      speech_turn_body w CallSid conv s outcome := by
  unfold handle_speech_input
  rw [hconv]
  have hst : (s != "") = true := bne_iff_ne.mpr hs
  simp [pyTruthyStr, pyStr, hst]

theorem process_input_exn (h : AIHandler) (u e : String) (hconf : h.configured = true) :
    process_input h u (.exn e) =
      ({ h with conversation_history :=
          (h.conversation_history ++ [{ role := "user", content := some u }]) },
       { response := some "I apologize, but I'm experiencing some issues. Let me transfer you to our staff.",
         action := some "transfer", action_data := none, error := some e }) := by
  simp [process_input, hconf]

theorem process_input_ok_fc (h : AIHandler) (u : String) (content : Option String)
    (fname : String) (fargs : List (String × String)) (hconf : h.configured = true) :
    process_input h u (.ok content (some (fname, fargs))) =
      ({ h with conversation_history := (h.conversation_history ++
          [{ role := "user", content := some u },
           { role := "assistant",
             content := some (pyOrStr content (getActionResponse fname fargs)) }]) },
       { response := some (pyOrStr content (getActionResponse fname fargs)),
         action := some fname, action_data := some fargs, error := none }) := by
  simp [process_input, hconf]

/-! ## Claim theorems -/

/-- C5: when the called number matches no business, `handle_incoming_call`
returns exactly the "not configured" spoken message followed by a hang-up, and
the state is untouched: no ConversationState is registered and no call row is
inserted. -/
theorem no_business_not_configured (w : World) (CallSid : String)
    («From» To : Option String) (jdecode : String → Option (List String))
    (h : w.businesses.find? (fun b => b.twilio_phone_number == To) = none) :
    handle_incoming_call w CallSid «From» To jdecode =
      (w, [TwimlVerb.say
            "We're sorry, but this number is not configured. Please try again later."
            "Polly.Joanna",
           TwimlVerb.hangup]) := by
  unfold handle_incoming_call
  rw [h]
  rfl

/-- Witness for C5 at a concrete world whose only business serves a different
number. -/
theorem no_business_not_configured_witness :
    (sampleWorld.businesses.find?
        (fun b => b.twilio_phone_number == some "+14440000") = none) ∧
    handle_incoming_call sampleWorld "CA9" (some "+15550123") (some "+14440000")
        (fun _ => none) =
      (sampleWorld, [TwimlVerb.say
          "We're sorry, but this number is not configured. Please try again later."
          "Polly.Joanna",
        TwimlVerb.hangup]) :=
  ⟨by decide, no_business_not_configured sampleWorld "CA9" (some "+15550123")
    (some "+14440000") (fun _ => none) (by decide)⟩

/-- C7: a speech turn with no registered ConversationState or a falsy
transcript text returns the fixed "didn't catch that" reply with a gather
directive and leaves the whole state (registry, turn history, transcript
lines, collected fields) unchanged. -/
theorem degraded_turn_no_mutation (w : World) (CallSid : String)
    (SpeechResult : Option String) (outcome : ModelOutcome)
    (h : dictGet w.active_conversations CallSid = none ∨
      pyTruthyStr SpeechResult = false) :
    handle_speech_input w CallSid SpeechResult outcome =
      (w, [TwimlVerb.gatherSay
            "I'm sorry, I didn't catch that. Could you please repeat?" "Polly.Joanna",
           TwimlVerb.say "Are you still there?" "Polly.Joanna",
           TwimlVerb.redirect "/api/webhooks/twilio/voice"]) := by
  unfold handle_speech_input
  rcases h with h | h
  · rw [h]
    rfl
  · cases hc : dictGet w.active_conversations CallSid
    · rfl
    · simp [h, create_response]

/-- Witness for C7: empty speech on the live call `CA1` of the concrete
world. -/
theorem degraded_turn_no_mutation_witness :
    (pyTruthyStr (some "") = false) ∧
    handle_speech_input sampleWorld "CA1" (some "") (.exn "unused") =
      (sampleWorld, [TwimlVerb.gatherSay
          "I'm sorry, I didn't catch that. Could you please repeat?" "Polly.Joanna",
        TwimlVerb.say "Are you still there?" "Polly.Joanna",
        TwimlVerb.redirect "/api/webhooks/twilio/voice"]) :=
  ⟨rfl, degraded_turn_no_mutation sampleWorld "CA1" (some "") (.exn "unused")
    (Or.inr rfl)⟩

/-- C9 counterexample: a `trigger_phrases` text that fails to decode as JSON
is not treated as the empty sequence — lines 94–100 of ai_handler.py wrap the
raw text in a one-element list. -/
theorem trigger_decode_failure_not_empty :
    loadTriggers (fun _ => none) (Sum.inl "billing question") = ["billing question"] ∧
    loadTriggers (fun _ => none) (Sum.inl "billing question") ≠ ([] : List String) :=
  ⟨rfl, by decide⟩

/-- C9 amended: on JSON decode failure, `fields_to_collect` text becomes the
empty sequence, while `trigger_phrases` text becomes the one-element sequence
holding the raw text. -/
theorem list_field_decode_failure (jdecode : String → Option (List String))
    (s : String) (h : jdecode s = none) :
    loadFields jdecode (Sum.inl s) = [] ∧ loadTriggers jdecode (Sum.inl s) = [s] := by
  constructor <;> simp [loadFields, loadTriggers, h]

/-- Witness for the amended C9 at a decoder that always fails. -/
theorem list_field_decode_failure_witness :
    ((fun (_ : String) => (none : Option (List String))) "billing question" = none) ∧
    (loadFields (fun _ => none) (Sum.inl "billing question") = [] ∧
      loadTriggers (fun _ => none) (Sum.inl "billing question") = ["billing question"]) :=
  ⟨rfl, list_field_decode_failure (fun _ => none) "billing question" rfl⟩

/-- C3 counterexample: with conversation `CA1` already registered, a second
inbound call for `CA1` does not fail with a DuplicateKey error — it completes
with the normal greeting response and silently replaces the registered
ConversationState with a fresh one (new call row id 2, empty transcript). -/
theorem duplicate_callid_replaces_state :
    dictGet sampleWorld.active_conversations "CA1" = some sampleConv ∧
    dictGet (handle_incoming_call sampleWorld "CA1" (some "+15550123")
        (some "+15550999") (fun _ => none)).1.active_conversations "CA1" =
      some { ai_handler := ({ configured := true, custom_prompts := none, conversation_history := [] } : AIHandler),
             call_id := 2, business_id := 7, collected_info := [], transcript := [] } ∧
    (handle_incoming_call sampleWorld "CA1" (some "+15550123")
        (some "+15550999") (fun _ => none)).1.active_conversations.length = 1 ∧
    (handle_incoming_call sampleWorld "CA1" (some "+15550123")
        (some "+15550999") (fun _ => none)).2 =
      create_greeting_response "Hello!" "Polly.Joanna" := by
  refine ⟨rfl, ?_, rfl, rfl⟩
  rfl

/-- C3 amended: `active_conversations[CallSid] = state` on an already-present
call identifier replaces the existing ConversationState with the fresh one
(plain dict assignment, no DuplicateKey error), keeping exactly one registry
entry per identifier (the registry length is unchanged). -/
theorem create_existing_callid_replaces (w : World) (CallSid : String)
    («From» To : Option String) (jdecode : String → Option (List String))
    (business : Business)
    (hb : w.businesses.find? (fun b => b.twilio_phone_number == To) = some business)
    (hreg : (w.active_conversations.find? (fun p => p.1 == CallSid)).isSome = true) :
    dictGet (handle_incoming_call w CallSid «From» To jdecode).1.active_conversations
        CallSid =
      some { ai_handler := (add_prompts_to_context (AIHandler.init w.openai_configured)
               jdecode (loadPromptData w business)),
             call_id := freshCallId w, business_id := business.id,
             collected_info := [], transcript := [] } ∧
    (handle_incoming_call w CallSid «From» To jdecode).1.active_conversations.length =
      w.active_conversations.length := by
  unfold handle_incoming_call
  rw [hb]
  exact ⟨dictGet_dictSet_self _ _ _, dictSet_length_of_mem _ _ _ hreg⟩

/-- Witness for the amended C3 at the concrete world with `CA1` live. -/
theorem create_existing_callid_replaces_witness :
    (sampleWorld.businesses.find?
        (fun b => b.twilio_phone_number == some "+15550999") = some sampleBusiness) ∧
    ((sampleWorld.active_conversations.find? (fun p => p.1 == "CA1")).isSome = true) ∧
    (dictGet (handle_incoming_call sampleWorld "CA1" (some "+15550123")
          (some "+15550999") (fun _ => none)).1.active_conversations "CA1" =
        some { ai_handler := (add_prompts_to_context (AIHandler.init
                 sampleWorld.openai_configured) (fun _ => none)
                 (loadPromptData sampleWorld sampleBusiness)),
               call_id := freshCallId sampleWorld, business_id := sampleBusiness.id,
               collected_info := [], transcript := [] } ∧
      (handle_incoming_call sampleWorld "CA1" (some "+15550123")
          (some "+15550999") (fun _ => none)).1.active_conversations.length =
        sampleWorld.active_conversations.length) :=
  ⟨by decide, by decide,
    create_existing_callid_replaces sampleWorld "CA1" (some "+15550123")
      (some "+15550999") (fun _ => none) sampleBusiness (by decide) (by decide)⟩

/-- C4: on a terminal status event with a live ConversationState and a found
call row, the stored status is exactly the claimed provider-status mapping
(completed→COMPLETED, busy/no-answer/canceled→MISSED, failed→FAILED,
default→COMPLETED, on the lowercased provider value) and the stored duration
is the provider-reported seconds, `0` when none is reported. -/
theorem terminal_status_mapping (w : World) (sid ts : String) (d : Option Int)
    (so se : Except String String) (conv : Conversation) (call : CallRec)
    (hconv : dictGet w.active_conversations sid = some conv)
    (hcall : findCall w conv.call_id = some call) :
    ∃ c', findCall (handle_call_status w sid ts d false so se).1 conv.call_id = some c' ∧
      c'.duration_seconds = d.getD 0 ∧
      c'.status = (if ts.toLower = "completed" then CallStatus.COMPLETED
        else if ts.toLower = "busy" ∨ ts.toLower = "no-answer" ∨ ts.toLower = "canceled"
          then CallStatus.MISSED
        else if ts.toLower = "failed" then CallStatus.FAILED
        else CallStatus.COMPLETED) := by
  have hcall' : w.calls.find? (fun x => x.id == conv.call_id) = some call := hcall
  have hp := List.find?_some hcall'
  have hid : call.id = conv.call_id := by simpa using hp
  simp [handle_call_status, hconv, hcall]
  exact ⟨_, findCall_setCall w.calls call _ conv.call_id hcall' hid,
    pyOrInt_eq_getD d, status_map_cases ts.toLower⟩

/-- Witness for C4: provider status `busy` with 42 reported seconds on the
concrete world. -/
theorem terminal_status_mapping_witness :
    (dictGet sampleWorld.active_conversations "CA1" = some sampleConv) ∧
    (findCall sampleWorld sampleConv.call_id = some sampleCall) ∧
    (∃ c', findCall (handle_call_status sampleWorld "CA1" "busy" (some 42) false
          (Except.ok "summary") (Except.ok "positive")).1 sampleConv.call_id = some c' ∧
      c'.duration_seconds = (some (42 : Int)).getD 0 ∧
      c'.status = (if "busy".toLower = "completed" then CallStatus.COMPLETED
        else if "busy".toLower = "busy" ∨ "busy".toLower = "no-answer" ∨
            "busy".toLower = "canceled" then CallStatus.MISSED
        else if "busy".toLower = "failed" then CallStatus.FAILED
        else CallStatus.COMPLETED)) :=
  ⟨rfl, rfl,
    terminal_status_mapping sampleWorld "CA1" "busy" (some 42)
      (Except.ok "summary") (Except.ok "positive") sampleConv sampleCall rfl rfl⟩

/-- C8: if a terminal status delivery completed (returned the acknowledgement),
delivering a second terminal status event for the same call identifier is a
no-op: the world (durable rows and registry) is returned unchanged and the
acknowledgement payload is returned again. -/
theorem terminal_status_idempotent (w : World) (sid ts1 ts2 : String)
    (d1 d2 : Option Int) (cf1 cf2 : Bool) (so1 se1 so2 se2 : Except String String)
    (h : (handle_call_status w sid ts1 d1 cf1 so1 se1).2 = Except.ok statusAck) :
    handle_call_status (handle_call_status w sid ts1 d1 cf1 so1 se1).1 sid
        ts2 d2 cf2 so2 se2 =
      ((handle_call_status w sid ts1 d1 cf1 so1 se1).1, Except.ok statusAck) := by
  cases hconv : dictGet w.active_conversations sid with
  | none => simp [handle_call_status, hconv]
  | some conv =>
    cases hcall : findCall w conv.call_id with
    | none => simp [handle_call_status, hconv, hcall, dictGet_dictDel]
    | some call =>
      cases cf1 with
      | true =>
        exfalso
        simp [handle_call_status, hconv, hcall] at h
      | false => simp [handle_call_status, hconv, hcall, dictGet_dictDel]

/-- Witness for C8: a successful `completed` delivery on the concrete world,
then a second delivery of the same event. -/
theorem terminal_status_idempotent_witness :
    ((handle_call_status sampleWorld "CA1" "completed" (some 42) false
        (Except.ok "s") (Except.ok "positive")).2 = Except.ok statusAck) ∧
    handle_call_status (handle_call_status sampleWorld "CA1" "completed" (some 42)
        false (Except.ok "s") (Except.ok "positive")).1 "CA1" "completed" (some 42)
        false (Except.ok "s") (Except.ok "positive") =
      ((handle_call_status sampleWorld "CA1" "completed" (some 42) false
          (Except.ok "s") (Except.ok "positive")).1, Except.ok statusAck) :=
  ⟨rfl,
    terminal_status_idempotent sampleWorld "CA1" "completed" "completed"
      (some 42) (some 42) false false (Except.ok "s") (Except.ok "positive")
      (Except.ok "s") (Except.ok "positive") rfl⟩

/-- C1: evaluation of the failure path at a concrete failing input.  When the
model call raises (and likewise when the client is unconfigured),
`process_input` returns the fixed fallback reply with the embedded error
marker without raising, but with action string `"transfer"` — not
`"transfer_call"` as the specification states — so the orchestrator's
dispatcher matches no action branch and renders a gather-continue response
instead of a transfer. -/
theorem fallback_action_not_transfer_call :
    (process_input sampleHandler "I need an appointment" (.exn "network error")).2 =
      { response := some "I apologize, but I'm experiencing some issues. Let me transfer you to our staff.",
        action := some "transfer", action_data := none, error := some "network error" } ∧
    (some "transfer" ≠ some "transfer_call") ∧
    (process_input { configured := false, custom_prompts := none, conversation_history := [] }
        "hello" (.ok none none)).2.action = some "transfer" ∧
    (handle_speech_input sampleWorld "CA1" (some "I need an appointment")
        (.exn "network error")).2 =
      [TwimlVerb.gatherSay
          "I apologize, but I'm experiencing some issues. Let me transfer you to our staff."
          "Polly.Joanna",
        TwimlVerb.say "Are you still there?" "Polly.Joanna",
        TwimlVerb.redirect "/api/webhooks/twilio/voice"] := by
  exact ⟨rfl, by decide, rfl, rfl⟩

/-- C2: evaluation at a concrete failing input.  When the durable write
(`db.commit()`) raises on final reconciliation, the exception propagates out
of `handle_call_status` before the `del` statement runs, so the
ConversationState for the call identifier is NOT evicted — contradicting the
unconditional-eviction requirement. -/
theorem commit_failure_blocks_eviction :
    (handle_call_status sampleWorld "CA1" "completed" (some 42) true
        (Except.ok "s") (Except.ok "positive")).1 = sampleWorld ∧
    (handle_call_status sampleWorld "CA1" "completed" (some 42) true
        (Except.ok "s") (Except.ok "positive")).2 = Except.error "commit failed" ∧
    dictGet sampleWorld.active_conversations "CA1" = some sampleConv := by
  exact ⟨rfl, rfl, rfl⟩

/-- C10: when the model call fails after the caller's utterance was appended,
the handler's conversation history grows by exactly the one user entry (the
fallback reply is not appended to it), while the orchestrator-level transcript
records both the caller line and the fallback AI line. -/
theorem failure_history_grows_by_user_turn (w : World) (sid s e : String)
    (conv : Conversation)
    (hconv : dictGet w.active_conversations sid = some conv)
    (hs : s ≠ "") (hconf : conv.ai_handler.configured = true) :
    (process_input conv.ai_handler s (.exn e)).1.conversation_history =
      conv.ai_handler.conversation_history ++ [{ role := "user", content := some s }] ∧
    ∃ conv', dictGet (handle_speech_input w sid (some s) (.exn e)).1.active_conversations
        sid = some conv' ∧
      conv'.ai_handler.conversation_history =
        conv.ai_handler.conversation_history ++ [{ role := "user", content := some s }] ∧
      conv'.transcript = conv.transcript ++ ["Caller: " ++ s,
        "AI: I apologize, but I'm experiencing some issues. Let me transfer you to our staff."] := by
  constructor
  · rw [process_input_exn conv.ai_handler s e hconf]
  · rw [speech_input_reduce w sid conv s _ hconv hs]
    unfold speech_turn_body
    rw [process_input_exn conv.ai_handler s e hconf]
    refine ⟨_, dictGet_dictSet_self _ _ _, rfl, ?_⟩
    simp
    rfl

/-- Witness for C10 at the concrete world with live call `CA1`. -/
theorem failure_history_grows_by_user_turn_witness :
    (dictGet sampleWorld.active_conversations "CA1" = some sampleConv) ∧
    ("hello" ≠ "") ∧
    (sampleConv.ai_handler.configured = true) ∧
    ((process_input sampleConv.ai_handler "hello" (.exn "boom")).1.conversation_history =
        sampleConv.ai_handler.conversation_history ++
          [{ role := "user", content := some "hello" }] ∧
      ∃ conv', dictGet (handle_speech_input sampleWorld "CA1" (some "hello")
            (.exn "boom")).1.active_conversations "CA1" = some conv' ∧
        conv'.ai_handler.conversation_history =
          sampleConv.ai_handler.conversation_history ++
            [{ role := "user", content := some "hello" }] ∧
        conv'.transcript = sampleConv.transcript ++ ["Caller: " ++ "hello",
          "AI: I apologize, but I'm experiencing some issues. Let me transfer you to our staff."]) :=
  ⟨rfl, by decide, rfl,
    failure_history_grows_by_user_turn sampleWorld "CA1" "hello" "boom" sampleConv
      rfl (by decide) rfl⟩

/-- C6: on a speech turn whose model outcome is the `schedule_appointment`
function call, the returned fields are merged into the conversation's
collected fields, and the durable call row receives `collected_info`,
`action_taken = "appointment_scheduled"` and `action_details` in the same
handler invocation that returns the voice response; the response is the reply
followed by a hang-up. -/
theorem schedule_appointment_persists (w : World) (sid s : String)
    (content : Option String) (args : List (String × String))
    (conv : Conversation) (call : CallRec)
    (hconv : dictGet w.active_conversations sid = some conv)
    (hs : s ≠ "")
    (hconf : conv.ai_handler.configured = true)
    (hcall : findCall w conv.call_id = some call) :
    ∃ c', findCall (handle_speech_input w sid (some s)
          (.ok content (some ("schedule_appointment", args)))).1 conv.call_id = some c' ∧
      c'.collected_info = dictUpdate conv.collected_info args ∧
      c'.action_taken = some "appointment_scheduled" ∧
      c'.action_details = args ∧
      (∃ conv', dictGet (handle_speech_input w sid (some s)
            (.ok content (some ("schedule_appointment", args)))).1.active_conversations
          sid = some conv' ∧
        conv'.collected_info = dictUpdate conv.collected_info args) ∧
      (handle_speech_input w sid (some s)
          (.ok content (some ("schedule_appointment", args)))).2 =
        [TwimlVerb.say (pyOrStr content (getActionResponse "schedule_appointment" args))
            "Polly.Joanna",
         TwimlVerb.hangup] := by
  have hcall' : w.calls.find? (fun x => x.id == conv.call_id) = some call := hcall
  have hp := List.find?_some hcall'
  have hid : call.id = conv.call_id := by simpa using hp
  rw [speech_input_reduce w sid conv s _ hconv hs]
  unfold speech_turn_body
  rw [process_input_ok_fc conv.ai_handler s content "schedule_appointment" args hconf]
  cases args with
  | nil =>
    simp [findCall, hcall']
    exact ⟨_, findCall_setCall w.calls call _ conv.call_id hcall' hid, rfl, rfl, rfl,
      ⟨_, dictGet_dictSet_self _ _ _, rfl⟩, rfl⟩
  | cons a t =>
    simp [findCall, hcall']
    exact ⟨_, findCall_setCall w.calls call _ conv.call_id hcall' hid, rfl, rfl, rfl,
      ⟨_, dictGet_dictSet_self _ _ _, rfl⟩, rfl⟩

/-- Witness for C6: the model schedules Jane for 2024-06-01 10:00 on the
concrete world's live call `CA1`. -/
theorem schedule_appointment_persists_witness :
    (dictGet sampleWorld.active_conversations "CA1" = some sampleConv) ∧
    ("Book me" ≠ "") ∧
    (sampleConv.ai_handler.configured = true) ∧
    (findCall sampleWorld sampleConv.call_id = some sampleCall) ∧
    (∃ c', findCall (handle_speech_input sampleWorld "CA1" (some "Book me")
          (.ok none (some ("schedule_appointment",
            [("patient_name", "Jane"), ("preferred_date", "2024-06-01"),
             ("preferred_time", "10:00")])))).1 sampleConv.call_id = some c' ∧
      c'.collected_info = dictUpdate sampleConv.collected_info
        [("patient_name", "Jane"), ("preferred_date", "2024-06-01"),
         ("preferred_time", "10:00")] ∧
      c'.action_taken = some "appointment_scheduled" ∧
      c'.action_details = [("patient_name", "Jane"), ("preferred_date", "2024-06-01"),
        ("preferred_time", "10:00")] ∧
      (∃ conv', dictGet (handle_speech_input sampleWorld "CA1" (some "Book me")
            (.ok none (some ("schedule_appointment",
              [("patient_name", "Jane"), ("preferred_date", "2024-06-01"),
               ("preferred_time", "10:00")])))).1.active_conversations
          "CA1" = some conv' ∧
        conv'.collected_info = dictUpdate sampleConv.collected_info
          [("patient_name", "Jane"), ("preferred_date", "2024-06-01"),
           ("preferred_time", "10:00")]) ∧
      (handle_speech_input sampleWorld "CA1" (some "Book me")
          (.ok none (some ("schedule_appointment",
            [("patient_name", "Jane"), ("preferred_date", "2024-06-01"),
             ("preferred_time", "10:00")])))).2 =
        [TwimlVerb.say (pyOrStr none (getActionResponse "schedule_appointment"
            [("patient_name", "Jane"), ("preferred_date", "2024-06-01"),
             ("preferred_time", "10:00")])) "Polly.Joanna",
         TwimlVerb.hangup]) :=
  ⟨rfl, by decide, rfl, rfl,
    schedule_appointment_persists sampleWorld "CA1" "Book me" none
      [("patient_name", "Jane"), ("preferred_date", "2024-06-01"),
       ("preferred_time", "10:00")] sampleConv sampleCall rfl (by decide) rfl rfl⟩

end AIRecep
